import Mathlib

/-!
# Sample firmware configuration headers: a verification development

The repository ships two C preprocessor headers, `sampleConfiguration.h` and
`sampleConfiguration_adv.h`.  They are embedded here line by line, together with
the fragment of the C preprocessor needed to read them: comment removal and the
directives define, undef, ifdef, ifndef and endif for object-like macros.  The
headers contain no line continuation, so lines are not spliced.

The thermal subsystem that consumes these constants (ConfigRegistry,
SafetyMonitor, HeaterController) is not part of the repository; the
definitions that stand for it follow the design document and say so.
-/

namespace PrinterConfig

/-! ## The two headers -/

/-- The lines of `src/data/sampleConfiguration.h`. -/
def sampleConfiguration_h : List String := [
  "/**",
  " * Marlin 3D Printer Firmware",
  " * Configuration.h",
  " */",
  "",
  "#ifndef CONFIGURATION_H",
  "#define CONFIGURATION_H",
  "",
  "// Machine Configuration",
  "#define MACHINE_NAME \x22Ender 3 Pro\x22",
  "#define MACHINE_UUID \x2212345678-1234-1234-1234-123456789abc\x22",
  "",
  "// Board Configuration",
  "#define MOTHERBOARD BOARD_MELZI",
  "#define SERIAL_PORT 0",
  "#define BAUDRATE 115200",
  "",
  "// Bed Configuration",
  "#define TEMP_SENSOR_BED 1",
  "#define BED_MAXTEMP 100",
  "#define BED_MINTEMP 0",
  "",
  "// Hotend Configuration",
  "#define TEMP_SENSOR_0 1",
  "#define HEATER_0_MAXTEMP 250",
  "#define HEATER_0_MINTEMP 0",
  "",
  "// Movement Configuration",
  "#define DEFAULT_AXIS_STEPS_PER_UNIT \x7b 80, 80, 400, 93 \x7d",
  "#define DEFAULT_MAX_FEEDRATE \x7b 500, 500, 15, 50 \x7d",
  "#define DEFAULT_MAX_ACCELERATION \x7b 500, 500, 100, 5000 \x7d",
  "",
  "// Endstop Configuration",
  "#define USE_XMIN_PLUG",
  "#define USE_YMIN_PLUG",
  "#define USE_ZMIN_PLUG",
  "",
  "#define X_MIN_ENDSTOP_INVERTING true",
  "#define Y_MIN_ENDSTOP_INVERTING true",
  "#define Z_MIN_ENDSTOP_INVERTING true",
  "",
  "// Filament Configuration",
  "#define FILAMENT_RUNOUT_SENSOR",
  "#define FILAMENT_RUNOUT_SCRIPT \x22M600\x22",
  "",
  "// LCD Configuration",
  "#define REPRAP_DISCOUNT_SMART_CONTROLLER",
  "#define LCD_BED_LEVELING",
  "",
  "// Advanced Features",
  "//#define AUTO_BED_LEVELING_3POINT",
  "//#define AUTO_BED_LEVELING_LINEAR",
  "#define AUTO_BED_LEVELING_BILINEAR",
  "",
  "//#define MESH_BED_LEVELING",
  "//#define RESTORE_LEVELING_AFTER_G28",
  "",
  "// Experimental Features",
  "//#define EXPERIMENTAL_I2CBUS",
  "//#define I2C_SLAVE_ADDRESS 0",
  "",
  "// Debug Features",
  "//#define DEBUG_LEVELING_FEATURE",
  "//#define DEBUG_MESH_BED_LEVELING",
  "",
  "#endif",
  "",
  ""]

/-- The lines of `src/data/sampleConfiguration_adv.h`. -/
def sampleConfiguration_adv_h : List String := [
  "/**",
  " * Marlin 3D Printer Firmware",
  " * Configuration_adv.h",
  " */",
  "",
  "#ifndef CONFIGURATION_ADV_H",
  "#define CONFIGURATION_ADV_H",
  "",
  "// Advanced Movement Features",
  "#define ADVANCED_PAUSE_FEATURE",
  "#define ADVANCED_PAUSE_CONTINUOUS_PURGE",
  "#define ADVANCED_PAUSE_PURGE_FEEDRATE 3",
  "#define ADVANCED_PAUSE_PURGE_LENGTH 20",
  "",
  "// Advanced Temperature Features",
  "#define THERMAL_PROTECTION_PERIOD 40",
  "#define THERMAL_PROTECTION_HYSTERESIS 4",
  "#define THERMAL_PROTECTION_BED_PERIOD 20",
  "#define THERMAL_PROTECTION_BED_HYSTERESIS 2",
  "",
  "// Advanced Filament Features",
  "#define FILAMENT_CHANGE_ENABLE",
  "#define FILAMENT_CHANGE_X_POS 211",
  "#define FILAMENT_CHANGE_Y_POS 0",
  "#define FILAMENT_CHANGE_Z_ADD 2",
  "",
  "// Advanced LCD Features",
  "#define BABYSTEPPING",
  "#define BABYSTEP_XY",
  "#define BABYSTEP_INVERT_Z false",
  "",
  "// Advanced Endstop Features",
  "#define ENDSTOP_INTERRUPTS_FEATURE",
  "#define ENDSTOP_NOISE_FILTER",
  "#define ENDSTOP_NOISE_THRESHOLD 2",
  "",
  "// Advanced Motor Features",
  "#define STEALTHCHOP",
  "#define HYBRID_THRESHOLD",
  "#define TMC_DEBUG",
  "#define TMC_BAUD_RATE 115200",
  "",
  "// Advanced Bed Leveling Features",
  "#define G26_MESH_VALIDATION",
  "#define G26_MESH_EDITING",
  "#define G26_MESH_EDITING_EXTRA",
  "",
  "// Advanced G-code Features",
  "#define GCODE_MACROS",
  "#define GCODE_MOTION_MODES",
  "#define GCODE_PARK_AND_SCRIBE",
  "",
  "// Advanced Safety Features",
  "#define MAX7219_DEBUG",
  "#define MAX7219_NUMBER_UNITS 1",
  "#define MAX7219_INVERT_TEST false",
  "",
  "// Advanced Network Features",
  "//#define WIFI_CUSTOM_COMMAND",
  "//#define ESP3D_WIFISUPPORT",
  "",
  "// Advanced Sensor Features",
  "#define FILAMENT_WIDTH_SENSOR",
  "#define FILAMENT_WIDTH_SENSOR_USE_MM3",
  "#define FILAMENT_WIDTH_SENSOR_MEASUREMENT_OFFSET 0.2",
  "",
  "// Advanced Power Features",
  "#define POWER_SUPPLY 0",
  "#define POWER_SUPPLY_TIMEOUT 0",
  "#define POWER_SUPPLY_MANUAL_POWER_OFF",
  "",
  "#endif"]

/-! ## The preprocessor fragment -/

/-- The text of a file: its lines joined by the newline character. -/
def fileText : List String → List Char
  | [] => []
  | [l] => l.data
  | l :: ls => l.data ++ Char.ofNat 10 :: fileText ls

/-- Lexer mode while removing comments. -/
inductive Lex where
  | code | slash | str | esc | line | block | star
  deriving DecidableEq, Repr

/-- Comment removal (translation phase 3): every comment becomes one space;
string literals are copied unchanged. -/
def stripComments : Lex → List Char → List Char
  | .slash, [] => ['/']
  | _, [] => []
  | .code, c :: cs =>
    if c = '/' then stripComments .slash cs
    else if c = Char.ofNat 34 then c :: stripComments .str cs
    else c :: stripComments .code cs
  | .slash, c :: cs =>
    if c = '/' then ' ' :: stripComments .line cs
    else if c = '*' then ' ' :: stripComments .block cs
    else if c = Char.ofNat 34 then '/' :: c :: stripComments .str cs
    else '/' :: c :: stripComments .code cs
  | .str, c :: cs =>
    if c = Char.ofNat 92 then c :: stripComments .esc cs
    else if c = Char.ofNat 34 then c :: stripComments .code cs
    else if c = Char.ofNat 10 then c :: stripComments .code cs
    else c :: stripComments .str cs
  | .esc, c :: cs => c :: stripComments .str cs
  | .line, c :: cs =>
    if c = Char.ofNat 10 then c :: stripComments .code cs
    else stripComments .line cs
  | .block, c :: cs =>
    if c = '*' then stripComments .star cs else stripComments .block cs
  | .star, c :: cs =>
    if c = '/' then stripComments .code cs
    else if c = '*' then stripComments .star cs
    else stripComments .block cs

/-- Split a text at every occurrence of `sep`; `cur` is the current piece,
reversed. -/
def splitOn (sep : Char) (cur : List Char) : List Char → List (List Char)
  | [] => [cur.reverse]
  | c :: cs =>
    if c = sep then cur.reverse :: splitOn sep [] cs
    else splitOn sep (c :: cur) cs

/-- The lines of a text. -/
def splitLines (text : List Char) : List (List Char) :=
  splitOn (Char.ofNat 10) [] text

/-- Space or horizontal tab. -/
def isBlank (c : Char) : Bool := c = ' ' || c = Char.ofNat 9

/-- Characters of an identifier: letters, digits and the underscore. -/
def isIdentChar (c : Char) : Bool :=
  c.isAlphanum || c = '_'

/-- Drop leading blanks. -/
def skipBlanks : List Char → List Char
  | [] => []
  | c :: cs => if isBlank c then skipBlanks cs else c :: cs

/-- Longest identifier prefix and the rest of the line. -/
def takeIdent : List Char → List Char × List Char
  | [] => ([], [])
  | c :: cs =>
    if isIdentChar c then ((takeIdent cs).1.cons c, (takeIdent cs).2)
    else ([], c :: cs)

/-- Remove leading and trailing blanks. -/
def trim (cs : List Char) : List Char :=
  (skipBlanks (skipBlanks cs).reverse).reverse

/-- One logical line after comment removal. -/
inductive Directive where
  | define (name : String) (body : String)
  | undefine (name : String)
  | ifDefined (name : String)
  | ifNotDefined (name : String)
  | endif
  | unsupported (keyword : String)
  | text (content : String)
  | blank
  deriving DecidableEq, Repr

/-- Classify a line (translation phase 4).  A function-like macro, and any
directive other than the five of the fragment, is `unsupported`. -/
def parseLine (l : List Char) : Directive :=
  match skipBlanks l with
  | [] => .blank
  | c :: rest =>
    if c = '#' then
      let kw := takeIdent (skipBlanks rest)
      let arg := takeIdent (skipBlanks kw.2)
      if kw.1 = "define".data then
        if arg.1 = [] then .unsupported "define"
        else if arg.2.head? = some '(' then .unsupported "define"
        else .define (String.mk arg.1) (String.mk (trim arg.2))
      else if kw.1 = "undef".data then .undefine (String.mk arg.1)
      else if kw.1 = "ifdef".data then .ifDefined (String.mk arg.1)
      else if kw.1 = "ifndef".data then .ifNotDefined (String.mk arg.1)
      else if kw.1 = "endif".data then .endif
      else if kw.1 = [] then .blank
      else .unsupported (String.mk kw.1)
    else .text (String.mk (trim (c :: rest)))

/-- The directives of a file, in order. -/
def directives (file : List String) : List Directive :=
  (splitLines (stripComments .code (fileText file))).map parseLine

/-- Macro table: the object-like macros in the order they were defined, each
with its replacement text. -/
abbrev Env := List (String × String)

/-- The replacement text of `name`: the latest definition wins. -/
def lookup (env : Env) (name : String) : Option String :=
  match env with
  | [] => none
  | (n, v) :: rest =>
    match lookup rest name with
    | some w => some w
    | none => if n = name then some v else none

/-- What `defined(name)` tests. -/
def isDefined (env : Env) (name : String) : Bool := (lookup env name).isSome

/-- Preprocessor state: the macro table, the number of open conditionals whose
group is being read, and the nesting depth inside a skipped group. -/
structure PP where
  env : Env
  opened : Nat
  skipping : Nat
  deriving DecidableEq, Repr

/-- Execute one directive.  `none` is a preprocessing error (an `#endif`
without an open conditional, or a directive outside the fragment). -/
def PP.step (s : PP) (d : Directive) : Option PP :=
  match s.skipping with
  | k + 1 =>
    match d with
    | .ifDefined _ => some { s with skipping := k + 2 }
    | .ifNotDefined _ => some { s with skipping := k + 2 }
    | .endif => some { s with skipping := k }
    | .unsupported kw => if kw = "if" ∨ kw = "else" ∨ kw = "elif" then none else some s
    | _ => some s
  | 0 =>
    match d with
    | .define n b => some { s with env := s.env ++ [(n, b)] }
    | .undefine n => some { s with env := s.env.filter (fun p => p.1 ≠ n) }
    | .ifDefined n => if isDefined s.env n then some { s with opened := s.opened + 1 } else some { s with skipping := 1 }
    | .ifNotDefined n => if isDefined s.env n then some { s with skipping := 1 } else some { s with opened := s.opened + 1 }
    | .endif => match s.opened with
      | 0 => none
      | o + 1 => some { s with opened := o }
    | .unsupported _ => none
    | .text _ => some s
    | .blank => some s

/-- Execute the directives of a file in order. -/
def PP.run (s : PP) : List Directive → Option PP
  | [] => some s
  | d :: ds => match s.step d with
    | none => none
    | some t => t.run ds

/-- Preprocess one file on top of a macro table; every conditional must be
closed at the end of the file. -/
def preprocess (env : Env) (file : List String) : Option Env :=
  match PP.run ⟨env, 0, 0⟩ (directives file) with
  | some ⟨e, 0, 0⟩ => some e
  | _ => none

/-- Preprocess files one after the other in a single translation unit. -/
def preprocessAll (env : Env) : List (List String) → Option Env
  | [] => some env
  | f :: fs => match preprocess env f with
    | none => none
    | some e => preprocessAll e fs


/-! ## Values of macros -/

/-- Value of a string of decimal digits, continuing from `acc`. -/
def parseDigits (acc : Nat) : List Char → Option Nat
  | [] => some acc
  | c :: cs => if c.isDigit then parseDigits (acc * 10 + (c.toNat - 48)) cs else none

/-- Value of a decimal integer literal; octal, hexadecimal and suffixed
literals are outside the fragment and give `none`. -/
def parseIntLiteral (s : String) : Option Int :=
  match s.data with
  | [] => none
  | c :: cs =>
    if c = '0' ∧ cs ≠ [] then none
    else (parseDigits 0 (c :: cs)).map Int.ofNat

/-- Value of the literals `true` and `false`. -/
def parseBool (s : String) : Option Bool :=
  if s = "true" then some true
  else if s = "false" then some false
  else none

/-- Values of the items of an initializer list, each an integer literal. -/
def parseItems : List (List Char) → Option (List Int)
  | [] => some []
  | item :: rest =>
    match parseIntLiteral (String.mk (trim item)), parseItems rest with
    | some v, some vs => some (v :: vs)
    | _, _ => none

/-- Value of a brace-enclosed list of integer literals. -/
def parseInitializer (s : String) : Option (List Int) :=
  match trim s.data with
  | [] => none
  | c :: rest =>
    if c = Char.ofNat 123 then
      match rest.reverse with
      | [] => none
      | d :: inner =>
        if d = Char.ofNat 125 then parseItems (splitOn ',' [] inner.reverse) else none
    else none

/-- Integer value of a macro in a macro table. -/
def intValue (env : Env) (name : String) : Option Int :=
  (lookup env name).bind parseIntLiteral

/-- Boolean value of a macro in a macro table. -/
def boolValue (env : Env) (name : String) : Option Bool :=
  (lookup env name).bind parseBool

/-- Array value of a macro in a macro table. -/
def arrayValue (env : Env) (name : String) : Option (List Int) :=
  (lookup env name).bind parseInitializer

/-- The macro table after reading the given headers in the given order. -/
def loadHeaders (files : List (List String)) : Option Env :=
  preprocessAll [] files

/-- The two sample headers, basic configuration first. -/
def sampleHeaders : List (List String) :=
  [sampleConfiguration_h, sampleConfiguration_adv_h]

/-- The definitions that the `#define` directives of a file make, in order. -/
def defines (ds : List Directive) : Env :=
  ds.filterMap (fun d => match d with
    | .define n b => some (n, b)
    | _ => none)

/-- The macro names that the `#define` directives of a file introduce. -/
def definedNames (ds : List Directive) : List String :=
  (defines ds).map Prod.fst

/-- The directives of a file without its blank lines. -/
def nonBlank (ds : List Directive) : List Directive :=
  ds.filter (fun d => d ≠ .blank)

/-- Integer value of a macro after reading the sample headers. -/
def headerInt (name : String) : Option Int :=
  (loadHeaders sampleHeaders).bind (fun env => intValue env name)

/-- Boolean value of a macro after reading the sample headers. -/
def headerBool (name : String) : Option Bool :=
  (loadHeaders sampleHeaders).bind (fun env => boolValue env name)

/-- Array value of a macro after reading the sample headers. -/
def headerArray (name : String) : Option (List Int) :=
  (loadHeaders sampleHeaders).bind (fun env => arrayValue env name)

/-- Whether a macro is defined after reading the sample headers. -/
def headerDefined (name : String) : Bool :=
  match loadHeaders sampleHeaders with
  | some env => isDefined env name
  | none => false

/-- The per-axis movement arrays (X, Y, Z, E). -/
def axisArrays : List String :=
  ["DEFAULT_AXIS_STEPS_PER_UNIT", "DEFAULT_MAX_FEEDRATE", "DEFAULT_MAX_ACCELERATION"]

/-- The bed-leveling modes, of which a build selects one. -/
def levelingModes : List String :=
  ["AUTO_BED_LEVELING_3POINT", "AUTO_BED_LEVELING_LINEAR", "AUTO_BED_LEVELING_BILINEAR",
   "MESH_BED_LEVELING"]

/-- Each minimum endstop plug with its inversion flag. -/
def endstopPlugs : List (String × String) :=
  [("USE_XMIN_PLUG", "X_MIN_ENDSTOP_INVERTING"), ("USE_YMIN_PLUG", "Y_MIN_ENDSTOP_INVERTING"),
   ("USE_ZMIN_PLUG", "Z_MIN_ENDSTOP_INVERTING")]

/-- Conditional-inclusion directives (the fragment rejects `#if`, `#elif`
and `#else`, which show up as `unsupported`). -/
def isConditional : Directive → Bool
  | .ifDefined _ => true
  | .ifNotDefined _ => true
  | .endif => true
  | .unsupported _ => true
  | _ => false

/-- Whether a directive removes a macro. -/
def isUndefine : Directive → Bool
  | .undefine _ => true
  | _ => false

/-! ## Configuration registry -/

/-- Modelled from the spec: the ConfigRegistry configuration object, which the
repository does not contain.  Its fields are the ten recognised options of the
load format, each holding the value of the macro of the same name. -/
structure ConfigRegistry where
  TEMP_SENSOR_BED : Int
  BED_MAXTEMP : Int
  BED_MINTEMP : Int
  TEMP_SENSOR_0 : Int
  HEATER_0_MAXTEMP : Int
  HEATER_0_MINTEMP : Int
  THERMAL_PROTECTION_PERIOD : Int
  THERMAL_PROTECTION_HYSTERESIS : Int
  THERMAL_PROTECTION_BED_PERIOD : Int
  THERMAL_PROTECTION_BED_HYSTERESIS : Int
  deriving DecidableEq, Repr

/-- The recognised options, in the order the load format lists them. -/
def recognisedOptions : List String :=
  ["TEMP_SENSOR_BED", "BED_MAXTEMP", "BED_MINTEMP", "TEMP_SENSOR_0",
   "HEATER_0_MAXTEMP", "HEATER_0_MINTEMP", "THERMAL_PROTECTION_PERIOD",
   "THERMAL_PROTECTION_HYSTERESIS", "THERMAL_PROTECTION_BED_PERIOD",
   "THERMAL_PROTECTION_BED_HYSTERESIS"]

/-- Modelled from the spec: loading the ConfigRegistry from a macro table.
Loading fails when a recognised option is missing or is not an integer
literal. -/
def ConfigRegistry.load (env : Env) : Option ConfigRegistry :=
  (intValue env "TEMP_SENSOR_BED").bind fun a =>
  (intValue env "BED_MAXTEMP").bind fun b =>
  (intValue env "BED_MINTEMP").bind fun c =>
  (intValue env "TEMP_SENSOR_0").bind fun d =>
  (intValue env "HEATER_0_MAXTEMP").bind fun e =>
  (intValue env "HEATER_0_MINTEMP").bind fun f =>
  (intValue env "THERMAL_PROTECTION_PERIOD").bind fun g =>
  (intValue env "THERMAL_PROTECTION_HYSTERESIS").bind fun h =>
  (intValue env "THERMAL_PROTECTION_BED_PERIOD").bind fun i =>
  (intValue env "THERMAL_PROTECTION_BED_HYSTERESIS").bind fun j =>
  some ⟨a, b, c, d, e, f, g, h, i, j⟩

/-- Modelled from the spec: the registry loaded once from the two sample
headers. -/
def ConfigRegistry.fromHeaders : Option ConfigRegistry :=
  (loadHeaders sampleHeaders).bind ConfigRegistry.load

/-! ## Thermal data model -/

/-- Modelled from the spec: the identity of a heater channel, BED or
HOTEND_n. -/
inductive HeaterId where
  | BED
  | HOTEND (n : Nat)
  deriving DecidableEq, Repr

/-- Modelled from the spec: the HeaterChannel record of the data model
(identity, sensor type id, temperature limits in degrees Celsius, protection
period in seconds, protection hysteresis in degrees Celsius). -/
structure HeaterChannel where
  identity : HeaterId
  sensorType : Int
  minTemp : Int
  maxTemp : Int
  period : Int
  hysteresis : Int
  deriving DecidableEq, Repr

/-- Modelled from the spec: the bed channel, built from the bed options of the
registry. -/
def ConfigRegistry.bed (c : ConfigRegistry) : HeaterChannel :=
  { identity := .BED
    sensorType := c.TEMP_SENSOR_BED
    minTemp := c.BED_MINTEMP
    maxTemp := c.BED_MAXTEMP
    period := c.THERMAL_PROTECTION_BED_PERIOD
    hysteresis := c.THERMAL_PROTECTION_BED_HYSTERESIS }

/-- Modelled from the spec: the channel of hotend 0, built from the hotend
options of the registry. -/
def ConfigRegistry.hotend0 (c : ConfigRegistry) : HeaterChannel :=
  { identity := .HOTEND 0
    sensorType := c.TEMP_SENSOR_0
    minTemp := c.HEATER_0_MINTEMP
    maxTemp := c.HEATER_0_MAXTEMP
    period := c.THERMAL_PROTECTION_PERIOD
    hysteresis := c.THERMAL_PROTECTION_HYSTERESIS }

/-- Modelled from the spec: the configured heaters, the bed and hotend 0 of
the registry loaded from the sample headers. -/
def configuredChannels : List HeaterChannel :=
  match ConfigRegistry.fromHeaders with
  | some c => [c.bed, c.hotend0]
  | none => []

/-- Modelled from the spec: the ThermalSample record of the data model.
Temperatures are whole degrees Celsius, timestamps whole seconds. -/
structure ThermalSample where
  channel : HeaterId
  raw : Int
  temperature : Int
  timestamp : Int
  deriving DecidableEq, Repr

/-- Modelled from the spec: the results of `evaluate`. -/
inductive Verdict where
  | OK | RUNAWAY | FAILED_TO_HEAT | SENSOR_FAULT
  deriving DecidableEq, Repr

/-! ## SafetyMonitor -/

/-- Modelled from the spec: the two rules of the monitor that look at the
whole window. -/
inductive WindowRule where
  | runaway | failedToHeat
  deriving DecidableEq, Repr

/-- Modelled from the spec: the SafetyMonitor component, which the repository
does not contain.  The spec words a RUNAWAY rule and a FAILED_TO_HEAT rule and
gives no precedence between them; `first` is the rule the monitor tries first. -/
structure SafetyMonitor where
  first : WindowRule
  deriving DecidableEq, Repr

/-- Modelled from the spec: how far a temperature deviates from the target. -/
def deviation (target t : Int) : Int := |t - target|

/-- Modelled from the spec: the rolling window of length `period` seconds, the
samples at most `period` seconds older than the instant `now`. -/
def window (period now : Int) (samples : List ThermalSample) : List ThermalSample :=
  samples.filter (fun s => now - s.timestamp ≤ period)

/-- Modelled from the spec: the samples (oldest first, newest last) cover the
protection period, reaching back at least `period` seconds from the newest. -/
def coversPeriod (period : Int) (samples : List ThermalSample) : Bool :=
  match samples.getLast? with
  | none => false
  | some s => samples.any (fun o => o.timestamp + period ≤ s.timestamp)

/-- Modelled from the spec: "If sample exceeds [MINTEMP, MAXTEMP], report
SENSOR_FAULT immediately, bypassing the window." -/
def sensorFaultRule (channel : HeaterChannel) (s : ThermalSample) : Bool :=
  s.temperature > channel.maxTemp || s.temperature < channel.minTemp

/-- Modelled from the spec: "If temperature deviates from target by more than
THERMAL_PROTECTION_HYSTERESIS for the entire window while target > 0, report
RUNAWAY." -/
def runawayRule (channel : HeaterChannel) (target : Int) (s : ThermalSample)
    (samples : List ThermalSample) : Bool :=
  target > 0 && coversPeriod channel.period samples &&
    (window channel.period s.timestamp samples).all
      (fun x => deviation target x.temperature > channel.hysteresis)

/-- Modelled from the spec: "If temperature never approaches target within the
period after heating starts, report FAILED_TO_HEAT."  Heating has started when
the target is above zero; a sample approaches the target when it is inside the
hysteresis band.  `evaluate` is given the recent samples only, not the instant
heating started, so the period is the rolling window; read this way the rule
fires on the same windows as the RUNAWAY rule, and which of the two verdicts is
reported is decided by the order in which the monitor tries them. -/
def failedToHeatRule (channel : HeaterChannel) (target : Int) (s : ThermalSample)
    (samples : List ThermalSample) : Bool :=
  target > 0 && coversPeriod channel.period samples &&
    !(window channel.period s.timestamp samples).any
      (fun x => deviation target x.temperature ≤ channel.hysteresis)

/-- Modelled from the spec: `evaluate(channel, recentSamples)` of the
SafetyMonitor.  `recentSamples` is in arrival order, the newest sample last;
`target` is the target temperature the monitor reads from the runtime state. -/
def SafetyMonitor.evaluate (m : SafetyMonitor) (channel : HeaterChannel) (target : Int)
    (recentSamples : List ThermalSample) : Verdict :=
  match recentSamples.getLast? with
  | none => .OK
  | some s =>
    if sensorFaultRule channel s then .SENSOR_FAULT
    else
      match m.first with
      | .runaway =>
        if runawayRule channel target s recentSamples then .RUNAWAY
        else if failedToHeatRule channel target s recentSamples then .FAILED_TO_HEAT
        else .OK
      | .failedToHeat =>
        if failedToHeatRule channel target s recentSamples then .FAILED_TO_HEAT
        else if runawayRule channel target s recentSamples then .RUNAWAY
        else .OK

/-! ## HeaterController -/

/-- Modelled from the spec: the states of the HeaterController state
machine. -/
inductive Phase where
  | IDLE | HEATING | AT_TARGET | FAULT
  deriving DecidableEq, Repr

/-- Modelled from the spec: the HeaterState record of the data model together
with the state of the controller's state machine.  The fault flag is
`phase = FAULT`; `achievedAt` is the time the target was last achieved. -/
structure HeaterState where
  phase : Phase
  currentTemp : Int
  targetTemp : Int
  faultReason : Option Verdict
  achievedAt : Option Int
  deriving DecidableEq, Repr

/-- Modelled from the spec: what reaches the controller, a `setTarget` from
the layer above, a sample, or a verdict of the SafetyMonitor. -/
inductive Input where
  | setTarget (temperature : Int)
  | sample (s : ThermalSample)
  | verdict (v : Verdict)
  deriving DecidableEq, Repr

/-- Modelled from the spec: what the controller sends out, an actuation
command to the heater or a `heaterFault` event to the layer above. -/
inductive Output where
  | actuate (heaterOn : Bool)
  | heaterFault (reason : Verdict)
  deriving DecidableEq, Repr

/-- Modelled from the spec: one transition of the HeaterController state
machine.  IDLE goes to HEATING when a target above zero is set, HEATING goes to
AT_TARGET on a sample inside the hysteresis band, every state goes to FAULT on
a verdict other than OK, and FAULT is left by no input.  The heater is driven
(bang-bang) after the safety evaluation of the tick came back OK. -/
def HeaterController.step (channel : HeaterChannel) (st : HeaterState) (i : Input) :
    HeaterState × List Output :=
  match st.phase with
  | .FAULT => (st, [])
  | .IDLE =>
    match i with
    | .setTarget t =>
      if t > 0 then ({ st with phase := .HEATING, targetTemp := t }, [])
      else ({ st with targetTemp := t }, [])
    | .sample s => ({ st with currentTemp := s.temperature }, [])
    | .verdict .OK => (st, [])
    | .verdict v => ({ st with phase := .FAULT, faultReason := some v }, [.heaterFault v])
  | .HEATING =>
    match i with
    | .setTarget t => ({ st with targetTemp := t }, [])
    | .sample s =>
      if deviation st.targetTemp s.temperature ≤ channel.hysteresis then
        ({ st with phase := .AT_TARGET, currentTemp := s.temperature,
                   achievedAt := some s.timestamp }, [])
      else ({ st with currentTemp := s.temperature }, [])
    | .verdict .OK => (st, [.actuate (decide (st.currentTemp < st.targetTemp))])
    | .verdict v => ({ st with phase := .FAULT, faultReason := some v }, [.heaterFault v])
  | .AT_TARGET =>
    match i with
    | .setTarget t => ({ st with targetTemp := t }, [])
    | .sample s =>
      if deviation st.targetTemp s.temperature ≤ channel.hysteresis then
        ({ st with currentTemp := s.temperature, achievedAt := some s.timestamp }, [])
      else ({ st with currentTemp := s.temperature }, [])
    | .verdict .OK => (st, [.actuate (decide (st.currentTemp < st.targetTemp))])
    | .verdict v => ({ st with phase := .FAULT, faultReason := some v }, [.heaterFault v])

/-- Modelled from the spec: the controller fed a sequence of inputs; the
outputs are collected in order. -/
def HeaterController.run (channel : HeaterChannel) (st : HeaterState) :
    List Input → HeaterState × List Output
  | [] => (st, [])
  | i :: rest =>
    let r := HeaterController.step channel st i
    let q := HeaterController.run channel r.1 rest
    (q.1, r.2 ++ q.2)

/-- Modelled from the spec: the number of transitions into FAULT along a
run. -/
def HeaterController.faultEntries (channel : HeaterChannel) (st : HeaterState) :
    List Input → Nat
  | [] => 0
  | i :: rest =>
    let next := (HeaterController.step channel st i).1
    (if st.phase ≠ .FAULT ∧ next.phase = .FAULT then 1 else 0) +
      HeaterController.faultEntries channel next rest

/-- Modelled from the spec: one tick of the control loop for a heater, in the
order sampling, safety evaluation, actuation.  The newest sample is handed to
the controller, the monitor evaluates the recent samples against the target,
and its verdict is handed to the controller. -/
def HeaterController.tickInputs (m : SafetyMonitor) (channel : HeaterChannel)
    (st : HeaterState) (recentSamples : List ThermalSample) : List Input :=
  match recentSamples.getLast? with
  | none => []
  | some s => [.sample s, .verdict (m.evaluate channel st.targetTemp recentSamples)]

/-- Modelled from the spec: the controller after one tick, with the outputs
of the tick. -/
def HeaterController.tick (m : SafetyMonitor) (channel : HeaterChannel)
    (st : HeaterState) (recentSamples : List ThermalSample) : HeaterState × List Output :=
  HeaterController.run channel st (HeaterController.tickInputs m channel st recentSamples)


/-! ## Facts about the sample headers -/

theorem fromHeaders_eq :
    ConfigRegistry.fromHeaders = some ⟨1, 100, 0, 1, 250, 0, 40, 4, 20, 2⟩ := by
  decide!

theorem configuredChannels_eq :
    configuredChannels =
      [⟨.BED, 1, 0, 100, 20, 2⟩, ⟨.HOTEND 0, 1, 0, 250, 40, 4⟩] := by
  decide!

theorem lookup_append (x y : Env) (n : String) :
    lookup (x ++ y) n = (lookup y n).orElse (fun _ => lookup x n) := by
  induction x with
  | nil => cases h : lookup y n <;> simp [lookup, h, Option.orElse]
  | cons p x ih =>
    obtain ⟨k, v⟩ := p
    simp only [List.cons_append, lookup, List.append_eq]
    rw [ih]
    cases hy : lookup y n <;> simp [Option.orElse]

theorem lookup_isSome (x : Env) (n : String) :
    (lookup x n).isSome = true ↔ n ∈ x.map Prod.fst := by
  induction x with
  | nil => simp [lookup]
  | cons p x ih =>
    obtain ⟨k, v⟩ := p
    simp only [lookup, List.map_cons, List.mem_cons]
    cases hx : lookup x n with
    | some w =>
      have : n ∈ x.map Prod.fst := ih.mp (by simp [hx])
      simp [this]
    | none =>
      have hnot : n ∉ x.map Prod.fst := fun hmem => by
        have := ih.mpr hmem
        simp [hx] at this
      by_cases hk : k = n
      · simp [hk]
      · have hk2 : ¬ n = k := fun e => hk e.symm
        simp [hk, hk2, hnot]

theorem lookup_append_comm (x y : Env) (hnd : ((x ++ y).map Prod.fst).Nodup) (n : String) :
    lookup (x ++ y) n = lookup (y ++ x) n := by
  rw [lookup_append, lookup_append]
  rw [List.map_append, List.nodup_append] at hnd
  obtain ⟨_, _, hdis⟩ := hnd
  cases hx : lookup x n with
  | none => cases hy : lookup y n <;> simp [Option.orElse]
  | some a =>
    cases hy : lookup y n with
    | none => simp [Option.orElse]
    | some b =>
      exact absurd ((lookup_isSome y n).mp (by simp [hy]))
        (fun hmem => hdis ((lookup_isSome x n).mp (by simp [hx])) hmem)

/-- C6: each of the ten recognised options is defined by an active define of
the two sample headers taken together and its value is an integer literal, so
the registry loads from the headers with no option missing. -/
theorem recognised_options_defined :
    recognisedOptions.length = 10 ∧
    recognisedOptions.map headerDefined = List.replicate 10 true ∧
    recognisedOptions.map headerInt =
      [some 1, some 100, some 0, some 1, some 250, some 0, some 40, some 4, some 20, some 2] ∧
    ConfigRegistry.fromHeaders = some ⟨1, 100, 0, 1, 250, 0, 40, 4, 20, 2⟩ := by
  refine ⟨by decide, by decide!, by decide!, fromHeaders_eq⟩

/-- C7: across the two sample headers every macro name is defined by exactly
one define, all of them active; there is no undef; the only conditionals are
the two include guards; and the value looked up for any name is the same
whichever header is read first. -/
theorem configuration_unambiguous :
    (definedNames (directives sampleConfiguration_h) ++
      definedNames (directives sampleConfiguration_adv_h)).Nodup ∧
    (loadHeaders [sampleConfiguration_h, sampleConfiguration_adv_h] =
      some (defines (directives sampleConfiguration_h) ++
        defines (directives sampleConfiguration_adv_h))) ∧
    (loadHeaders [sampleConfiguration_adv_h, sampleConfiguration_h] =
      some (defines (directives sampleConfiguration_adv_h) ++
        defines (directives sampleConfiguration_h))) ∧
    (directives sampleConfiguration_h ++ directives sampleConfiguration_adv_h).any isUndefine
      = false ∧
    (directives sampleConfiguration_h).filter isConditional
      = [.ifNotDefined "CONFIGURATION_H", .endif] ∧
    (directives sampleConfiguration_adv_h).filter isConditional
      = [.ifNotDefined "CONFIGURATION_ADV_H", .endif] ∧
    (nonBlank (directives sampleConfiguration_h)).take 2
      = [.ifNotDefined "CONFIGURATION_H", .define "CONFIGURATION_H" ""] ∧
    (nonBlank (directives sampleConfiguration_adv_h)).take 2
      = [.ifNotDefined "CONFIGURATION_ADV_H", .define "CONFIGURATION_ADV_H" ""] ∧
    (nonBlank (directives sampleConfiguration_h)).getLast? = some .endif ∧
    (nonBlank (directives sampleConfiguration_adv_h)).getLast? = some .endif ∧
    ∃ first second,
      loadHeaders [sampleConfiguration_h, sampleConfiguration_adv_h] = some first ∧
      loadHeaders [sampleConfiguration_adv_h, sampleConfiguration_h] = some second ∧
      ∀ name, lookup first name = lookup second name := by
  have hnd : (definedNames (directives sampleConfiguration_h) ++
      definedNames (directives sampleConfiguration_adv_h)).Nodup := by decide!
  have h12 : loadHeaders [sampleConfiguration_h, sampleConfiguration_adv_h] =
      some (defines (directives sampleConfiguration_h) ++
        defines (directives sampleConfiguration_adv_h)) := by decide!
  have h21 : loadHeaders [sampleConfiguration_adv_h, sampleConfiguration_h] =
      some (defines (directives sampleConfiguration_adv_h) ++
        defines (directives sampleConfiguration_h)) := by decide!
  refine ⟨hnd, h12, h21, by decide!, by decide!, by decide!, by decide!, by decide!,
    by decide!, by decide!, _, _, h12, h21, ?_⟩
  intro name
  apply lookup_append_comm
  simpa [definedNames] using hnd

/-- C8: for the bed and the hotend channel built from the sample headers the
lower limit is below the upper limit, period and hysteresis are positive, twice
the hysteresis is less than the span of the limits, and a target above zero
exists whose whole hysteresis band lies within the limits. -/
theorem thermal_constants_well_formed :
    configuredChannels.map (fun ch => (ch.identity, ch.minTemp, ch.maxTemp)) =
      [(.BED, 0, 100), (.HOTEND 0, 0, 250)] ∧
    configuredChannels.all (fun ch =>
      decide (ch.minTemp < ch.maxTemp ∧ 0 < ch.period ∧ 0 < ch.hysteresis ∧
        2 * ch.hysteresis < ch.maxTemp - ch.minTemp)) = true ∧
    ∀ ch ∈ configuredChannels, ∃ T : Int, 0 < T ∧
      ch.minTemp ≤ T - ch.hysteresis ∧ T + ch.hysteresis ≤ ch.maxTemp := by
  rw [configuredChannels_eq]
  refine ⟨by decide, by decide, ?_⟩
  intro ch hch
  simp only [List.mem_cons, List.mem_singleton, List.not_mem_nil, or_false] at hch
  rcases hch with rfl | rfl
  · exact ⟨50, by decide, by decide, by decide⟩
  · exact ⟨200, by decide, by decide, by decide⟩

/-- C9: the three per-axis movement arrays of the sample headers have four
entries each, every entry is a positive integer literal, and indexing any of
them by an axis index 0..3 gives a value that is not zero. -/
theorem axis_arrays_positive :
    axisArrays.map headerArray =
      [some [80, 80, 400, 93], some [500, 500, 15, 50], some [500, 500, 100, 5000]] ∧
    axisArrays.all (fun name => match headerArray name with
      | some arr => decide (arr.length = 4) && arr.all (fun v => decide (0 < v))
      | none => false) = true ∧
    ∀ i : Fin 4, axisArrays.all (fun name =>
      match (headerArray name).bind (fun arr => arr.get? i.val) with
      | some v => decide (v ≠ 0)
      | none => false) = true := by
  have h : axisArrays.map headerArray =
      [some [80, 80, 400, 93], some [500, 500, 15, 50], some [500, 500, 100, 5000]] := by
    decide!
  simp only [axisArrays, List.map_cons, List.map_nil, List.cons.injEq, and_true] at h
  obtain ⟨h1, h2, h3⟩ := h
  refine ⟨by simp [axisArrays, h1, h2, h3], by simp [axisArrays, h1, h2, h3], ?_⟩
  intro i
  simp only [axisArrays, List.all_cons, List.all_nil, h1, h2, h3, Option.some_bind]
  fin_cases i <;> decide

/-- C10: of the four bed-leveling modes exactly AUTO_BED_LEVELING_BILINEAR is
defined by an active define, and each of the three minimum endstop plugs is
enabled and has its inversion flag defined with a boolean value. -/
theorem one_leveling_mode_and_endstop_flags :
    levelingModes.filter headerDefined = ["AUTO_BED_LEVELING_BILINEAR"] ∧
    levelingModes.map headerDefined = [false, false, true, false] ∧
    endstopPlugs.map (fun p => headerDefined p.1) = [true, true, true] ∧
    endstopPlugs.map (fun p => headerBool p.2) = [some true, some true, some true] ∧
    endstopPlugs.all (fun p => !headerDefined p.1 || (headerBool p.2).isSome) = true := by
  refine ⟨by decide!, by decide!, by decide!, by decide!, by decide!⟩


/-! ## SafetyMonitor -/

theorem mem_of_getLast? {α : Type} {l : List α} {a : α} (h : l.getLast? = some a) : a ∈ l :=
  List.mem_of_getLast?_eq_some h

theorem evaluate_sensor_fault (m : SafetyMonitor) (ch : HeaterChannel) (target : Int)
    (samples : List ThermalSample) (s : ThermalSample) (hnew : samples.getLast? = some s)
    (hout : sensorFaultRule ch s = true) :
    m.evaluate ch target samples = .SENSOR_FAULT := by
  simp [SafetyMonitor.evaluate, hnew, hout]

theorem newest_mem_window (period : Int) (samples : List ThermalSample) (s : ThermalSample)
    (hp : 0 ≤ period) (hnew : samples.getLast? = some s) :
    s ∈ window period s.timestamp samples := by
  simp only [window, List.mem_filter, decide_eq_true_eq]
  exact ⟨mem_of_getLast? hnew, by omega⟩

theorem evaluate_ok (m : SafetyMonitor) (ch : HeaterChannel) (target : Int)
    (samples : List ThermalSample) (s : ThermalSample) (hp : 0 ≤ ch.period)
    (hnew : samples.getLast? = some s) (hin : sensorFaultRule ch s = false)
    (hband : deviation target s.temperature ≤ ch.hysteresis) :
    m.evaluate ch target samples = .OK := by
  have hw := newest_mem_window ch.period samples s hp hnew
  have hr : runawayRule ch target s samples = false := by
    simp only [runawayRule, Bool.and_eq_false_iff, List.all_eq_false]
    right
    exact ⟨s, hw, by simpa using hband⟩
  have hf : failedToHeatRule ch target s samples = false := by
    have hany : (window ch.period s.timestamp samples).any
        (fun x => decide (deviation target x.temperature ≤ ch.hysteresis)) = true :=
      List.any_eq_true.mpr ⟨s, hw, by simpa using hband⟩
    simp [failedToHeatRule, hany]
  cases hm : m.first <;> simp [SafetyMonitor.evaluate, hnew, hin, hr, hf, hm]

theorem step_sample_phase (ch : HeaterChannel) (st : HeaterState) (s : ThermalSample)
    (h : st.phase ≠ .FAULT) :
    (HeaterController.step ch st (.sample s)).1.phase ≠ .FAULT ∧
    (HeaterController.step ch st (.sample s)).1.targetTemp = st.targetTemp := by
  cases hp : st.phase
  · simp [HeaterController.step, hp]
  · by_cases hb : deviation st.targetTemp s.temperature ≤ ch.hysteresis <;>
      simp [HeaterController.step, hp, hb]
  · by_cases hb : deviation st.targetTemp s.temperature ≤ ch.hysteresis <;>
      simp [HeaterController.step, hp, hb]
  · exact absurd hp h

theorem step_verdict_ok_phase (ch : HeaterChannel) (st : HeaterState) :
    (HeaterController.step ch st (.verdict .OK)).1 = st := by
  cases hp : st.phase <;> simp [HeaterController.step, hp]

theorem faultEntries_append (ch : HeaterChannel) (st : HeaterState) (xs ys : List Input) :
    HeaterController.faultEntries ch st (xs ++ ys) =
      HeaterController.faultEntries ch st xs +
        HeaterController.faultEntries ch (HeaterController.run ch st xs).1 ys := by
  induction xs generalizing st with
  | nil => simp [HeaterController.faultEntries, HeaterController.run]
  | cons i rest ih =>
    simp [HeaterController.faultEntries, HeaterController.run, ih, Nat.add_assoc]

theorem tick_ok (m : SafetyMonitor) (ch : HeaterChannel) (st : HeaterState)
    (samples : List ThermalSample) (hphase : st.phase ≠ .FAULT)
    (hv : m.evaluate ch st.targetTemp samples = .OK) :
    (HeaterController.tick m ch st samples).1.phase ≠ .FAULT := by
  cases hnew : samples.getLast? with
  | none => simpa [HeaterController.tick, HeaterController.tickInputs, hnew, HeaterController.run]
      using hphase
  | some s =>
    have h1 := step_sample_phase ch st s hphase
    simp only [HeaterController.tick, HeaterController.tickInputs, hnew, hv,
      HeaterController.run, step_verdict_ok_phase]
    exact h1.1


/-- A window that covers the period and deviates throughout, with a target
above zero and the newest sample within the limits, triggers both window
rules; the monitor returns the verdict of the rule it tries first. -/
theorem evaluate_sustained_in_range (m : SafetyMonitor) (ch : HeaterChannel) (target : Int)
    (samples : List ThermalSample) (s : ThermalSample) (htarget : 0 < target)
    (hcover : coversPeriod ch.period samples = true)
    (hnew : samples.getLast? = some s)
    (hdev : ∀ x ∈ window ch.period s.timestamp samples,
      ch.hysteresis < deviation target x.temperature)
    (hin : sensorFaultRule ch s = false) :
    m.evaluate ch target samples =
      match m.first with
      | .runaway => .RUNAWAY
      | .failedToHeat => .FAILED_TO_HEAT := by
  have hr : runawayRule ch target s samples = true := by
    simp only [runawayRule, Bool.and_eq_true, decide_eq_true_eq, List.all_eq_true]
    exact ⟨⟨htarget, hcover⟩, fun x hx => hdev x hx⟩
  have hany : (window ch.period s.timestamp samples).any
      (fun x => decide (deviation target x.temperature ≤ ch.hysteresis)) = false := by
    rw [List.any_eq_false]
    intro x hx
    have := hdev x hx
    simp only [decide_eq_true_eq]
    omega
  have hf : failedToHeatRule ch target s samples = true := by
    simp [failedToHeatRule, hany, htarget, hcover]
  cases hm : m.first <;> simp [SafetyMonitor.evaluate, hnew, hin, hr, hf, hm]

/-! ## The claims about the thermal subsystem -/

/-- C1: each configured heater channel is the bed with limits 0 and 100 or
the first hotend with limits 0 and 250, and for every list of recent samples
whose newest sample is above the channel's upper or below its lower limit,
evaluate returns SENSOR_FAULT, whatever the target and the older samples are. -/
theorem sensor_fault_immediate (m : SafetyMonitor) (ch : HeaterChannel) (target : Int)
    (samples : List ThermalSample) (s : ThermalSample) (hch : ch ∈ configuredChannels)
    (hnew : samples.getLast? = some s)
    (hout : ch.maxTemp < s.temperature ∨ s.temperature < ch.minTemp) :
    ((ch.identity = .BED ∧ ch.minTemp = 0 ∧ ch.maxTemp = 100) ∨
      (ch.identity = .HOTEND 0 ∧ ch.minTemp = 0 ∧ ch.maxTemp = 250)) ∧
    m.evaluate ch target samples = .SENSOR_FAULT := by
  constructor
  · rw [configuredChannels_eq] at hch
    simp only [List.mem_cons, List.mem_singleton, List.not_mem_nil, or_false] at hch
    rcases hch with rfl | rfl <;> decide
  · apply evaluate_sensor_fault m ch target samples s hnew
    simpa [sensorFaultRule] using hout

theorem sensor_fault_immediate_witness :
    SafetyMonitor.evaluate ⟨.runaway⟩ ⟨.BED, 1, 0, 100, 20, 2⟩ 80
      [⟨.BED, 0, 80, 0⟩, ⟨.BED, 0, 81, 10⟩, ⟨.BED, 0, 101, 11⟩] = .SENSOR_FAULT ∧
    SafetyMonitor.evaluate ⟨.failedToHeat⟩ ⟨.HOTEND 0, 1, 0, 250, 40, 4⟩ 0
      [⟨.HOTEND 0, 0, 20, 0⟩, ⟨.HOTEND 0, 0, -1, 1⟩] = .SENSOR_FAULT :=
  ⟨(sensor_fault_immediate ⟨.runaway⟩ ⟨.BED, 1, 0, 100, 20, 2⟩ 80
      [⟨.BED, 0, 80, 0⟩, ⟨.BED, 0, 81, 10⟩, ⟨.BED, 0, 101, 11⟩] ⟨.BED, 0, 101, 11⟩
      (by rw [configuredChannels_eq]; decide) (by decide) (by decide)).2,
   (sensor_fault_immediate ⟨.failedToHeat⟩ ⟨.HOTEND 0, 1, 0, 250, 40, 4⟩ 0
      [⟨.HOTEND 0, 0, 20, 0⟩, ⟨.HOTEND 0, 0, -1, 1⟩] ⟨.HOTEND 0, 0, -1, 1⟩
      (by rw [configuredChannels_eq]; decide) (by decide) (by decide)).2⟩

/-- C2: with the bed channel built from the sample headers and target 80,
evaluate returns OK for every sample sequence that covers 20 s with every
temperature between 78 and 82, and SENSOR_FAULT for every sample sequence whose
newest sample is 105; the headers give BED_MAXTEMP 100, bed hysteresis 2 and
bed protection period 20. -/
theorem bed_example (m : SafetyMonitor) (cfg : ConfigRegistry)
    (steady hot : List ThermalSample) (s : ThermalSample)
    (hcfg : ConfigRegistry.fromHeaders = some cfg)
    (hcover : coversPeriod 20 steady = true)
    (hband : ∀ x ∈ steady, 78 ≤ x.temperature ∧ x.temperature ≤ 82)
    (hnew : hot.getLast? = some s) (h105 : s.temperature = 105) :
    cfg.BED_MAXTEMP = 100 ∧ cfg.BED_MINTEMP = 0 ∧
    cfg.THERMAL_PROTECTION_BED_HYSTERESIS = 2 ∧ cfg.THERMAL_PROTECTION_BED_PERIOD = 20 ∧
    m.evaluate cfg.bed 80 steady = .OK ∧
    m.evaluate cfg.bed 80 hot = .SENSOR_FAULT := by
  rw [fromHeaders_eq] at hcfg
  cases hcfg
  refine ⟨rfl, rfl, rfl, rfl, ?_, ?_⟩
  · cases hlast : steady.getLast? with
    | none => simp [coversPeriod, hlast] at hcover
    | some n =>
      have hn := hband n (mem_of_getLast? hlast)
      apply evaluate_ok m _ 80 steady n (by decide) hlast
      · simp only [sensorFaultRule, ConfigRegistry.bed, Bool.or_eq_false_iff,
          decide_eq_false_iff_not]
        omega
      · simp only [deviation, ConfigRegistry.bed, abs_le]
        omega
  · apply evaluate_sensor_fault m _ 80 hot s hnew
    simp [sensorFaultRule, ConfigRegistry.bed, h105]

theorem bed_example_witness :
    SafetyMonitor.evaluate ⟨.runaway⟩ (ConfigRegistry.bed ⟨1, 100, 0, 1, 250, 0, 40, 4, 20, 2⟩) 80
      [⟨.BED, 0, 78, 0⟩, ⟨.BED, 0, 82, 10⟩, ⟨.BED, 0, 79, 20⟩] = .OK ∧
    SafetyMonitor.evaluate ⟨.runaway⟩ (ConfigRegistry.bed ⟨1, 100, 0, 1, 250, 0, 40, 4, 20, 2⟩) 80
      [⟨.BED, 0, 80, 0⟩, ⟨.BED, 0, 105, 1⟩] = .SENSOR_FAULT :=
  (bed_example ⟨.runaway⟩ ⟨1, 100, 0, 1, 250, 0, 40, 4, 20, 2⟩
    [⟨.BED, 0, 78, 0⟩, ⟨.BED, 0, 82, 10⟩, ⟨.BED, 0, 79, 20⟩]
    [⟨.BED, 0, 80, 0⟩, ⟨.BED, 0, 105, 1⟩] ⟨.BED, 0, 105, 1⟩
    fromHeaders_eq (by decide) (by decide) (by decide) (by decide)).2.2.2.2

/-- C5, as stated, fails: the bed channel with target 100 and two samples of
102 taken 20 s apart, both within hysteresis 2 of the target, gets
SENSOR_FAULT, not OK, because 102 is above BED_MAXTEMP. -/
theorem in_band_above_maxtemp_faults :
    (⟨.BED, 1, 0, 100, 20, 2⟩ : HeaterChannel) ∈ configuredChannels ∧
    coversPeriod 20 [⟨.BED, 0, 102, 0⟩, ⟨.BED, 0, 102, 20⟩] = true ∧
    ([⟨.BED, 0, 102, 0⟩, ⟨.BED, 0, 102, 20⟩] : List ThermalSample).all
      (fun x => decide (|x.temperature - 100| ≤ 2)) = true ∧
    SafetyMonitor.evaluate ⟨.runaway⟩ ⟨.BED, 1, 0, 100, 20, 2⟩ 100
      [⟨.BED, 0, 102, 0⟩, ⟨.BED, 0, 102, 20⟩] = .SENSOR_FAULT ∧
    SafetyMonitor.evaluate ⟨.failedToHeat⟩ ⟨.BED, 1, 0, 100, 20, 2⟩ 100
      [⟨.BED, 0, 102, 0⟩, ⟨.BED, 0, 102, 20⟩] = .SENSOR_FAULT := by
  refine ⟨by rw [configuredChannels_eq]; decide, by decide, by decide, by decide, by decide⟩

/-- C5, amended: for each configured heater channel, every target T and every
sample sequence covering the protection period in which every temperature is
within hysteresis of T and within the channel's limits, evaluate returns OK at
every tick (on every prefix of the sequence), and a controller holding target T
that is not in FAULT does not enter FAULT on that tick. -/
theorem holding_target_never_faults (m : SafetyMonitor) (ch : HeaterChannel) (T : Int)
    (samples : List ThermalSample) (hch : ch ∈ configuredChannels)
    (hcover : coversPeriod ch.period samples = true)
    (hband : ∀ x ∈ samples, |x.temperature - T| ≤ ch.hysteresis)
    (hrange : ∀ x ∈ samples, ch.minTemp ≤ x.temperature ∧ x.temperature ≤ ch.maxTemp) :
    (∀ p, p <+: samples → m.evaluate ch T p = .OK) ∧
    (∀ p st, p <+: samples → st.phase ≠ .FAULT → st.targetTemp = T →
      (HeaterController.tick m ch st p).1.phase ≠ .FAULT) := by
  have hp : 0 ≤ ch.period := by
    rw [configuredChannels_eq] at hch
    simp only [List.mem_cons, List.mem_singleton, List.not_mem_nil, or_false] at hch
    rcases hch with rfl | rfl <;> decide
  have hok : ∀ p, p <+: samples → m.evaluate ch T p = .OK := by
    intro p hpre
    cases hlast : p.getLast? with
    | none => simp [SafetyMonitor.evaluate, hlast]
    | some n =>
      have hn : n ∈ samples := hpre.subset (mem_of_getLast? hlast)
      apply evaluate_ok m ch T p n hp hlast
      · have := hrange n hn
        simp only [sensorFaultRule, Bool.or_eq_false_iff, decide_eq_false_iff_not]
        omega
      · exact hband n hn
  refine ⟨hok, ?_⟩
  intro p st hpre hphase htarget
  exact tick_ok m ch st p hphase (by rw [htarget]; exact hok p hpre)

theorem holding_target_never_faults_witness :
    SafetyMonitor.evaluate ⟨.failedToHeat⟩ ⟨.HOTEND 0, 1, 0, 250, 40, 4⟩ 200
      [⟨.HOTEND 0, 0, 196, 0⟩, ⟨.HOTEND 0, 0, 204, 20⟩, ⟨.HOTEND 0, 0, 200, 40⟩] = .OK :=
  (holding_target_never_faults ⟨.failedToHeat⟩ ⟨.HOTEND 0, 1, 0, 250, 40, 4⟩ 200
    [⟨.HOTEND 0, 0, 196, 0⟩, ⟨.HOTEND 0, 0, 204, 20⟩, ⟨.HOTEND 0, 0, 200, 40⟩]
    (by rw [configuredChannels_eq]; decide) (by decide) (by decide) (by decide)).1
    _ List.prefix_rfl


end PrinterConfig
